import Mathlib

/-!
Verification development for the blackhole_exporter repository
(a Go Prometheus exporter that polls a FastNetMon API for blocked IPs).

The Go source (src/exporter.go) is shallowly embedded below:
pure control flow becomes Lean functions, the Prometheus gauge vector
becomes an association list keyed by the (ip, uuid) label pair, the
JSON decoding done by encoding/json on the BlackholeResponse struct is
modelled on a JSON syntax tree, and the effects of the scrape loop are
modelled as explicit event traces and store-transformer folds.
-/

set_option autoImplicit false

namespace BlackholeExporter

/-! ## Data model: the structs from src/exporter.go lines 81 to 86 -/

/-- One element of the "values" array: struct BlockedValue with json
tags "uuid" and "ip" (src/exporter.go lines 81 to 84). -/
structure BlockedValue where
  uuid : String
  ip : String
  deriving DecidableEq, Repr

/-- The decoded API payload: struct BlackholeResponse with json tags
"success" and "values" (src/exporter.go lines 85 to 86). -/
structure BlackholeResponse where
  success : Bool
  values : List BlockedValue
  deriving DecidableEq, Repr

/-! ## The metric store

The Prometheus GaugeVec blockedIP has label names ip and uuid and holds
one gauge child per distinct label-value pair.  We model it as an
association list from the (ip, uuid) pair to the gauge value.  The Go
map is unordered; the list order is an artifact of the model and no
claim depends on it. -/

/-- A label-value pair (ip, uuid) identifying one gauge child. -/
abbrev LabelPair := String × String

/-- The state of the blockedIP gauge vector: one entry per child. -/
abbrev Store := List (LabelPair × Int)

/-- Look up the gauge value for a label pair, as a Prometheus gather
observes it. -/
def lookupSeries : Store → LabelPair → Option Int
  | [], _ => none
  | e :: rest, p => if e.1 = p then some e.2 else lookupSeries rest p

/-- The effect of blockedIP.With(labels).Set(v): overwrite the child if
the label pair exists, otherwise create it (src/exporter.go line 129). -/
def setGauge : Store → LabelPair → Int → Store
  | [], k, v => [(k, v)]
  | e :: rest, k, v => if e.1 = k then (k, v) :: rest else e :: setGauge rest k v

/-- The effect of blockedIP.Reset(): delete every child
(src/exporter.go line 127). -/
def resetStore (_ : Store) : Store := []

/-- The replace operation of the success branch of updateMetrics:
Reset, then Set(1) for each value (src/exporter.go lines 127 to 130). -/
def replaceStore (values : List BlockedValue) (store : Store) : Store :=
  values.foldl (fun st v => setGauge st (v.ip, v.uuid) 1) (resetStore store)

/-- The metrics endpoint renders the current series set of the store.
The textual exposition format belongs to the Prometheus library and is
out of scope; we model the rendered output as the series list itself. -/
def render (store : Store) : List (LabelPair × Int) := store

/-- The label keys currently present in a store. -/
def storeKeys (store : Store) : List LabelPair := store.map (fun e => e.1)

/-! ## JSON decoding

encoding/json is the Go standard library, not repository code.  We model
the part updateMetrics relies on: unmarshalling an already-lexed JSON
value into the BlackholeResponse struct.  A whole byte payload is an
Option Json: none stands for bytes that are not syntactically valid
JSON (json.Unmarshal reports a syntax error on them), some j for bytes
whose JSON syntax tree is j. -/

/-- A JSON value, as produced by a syntactically successful parse. -/
inductive Json where
  | null
  | bool (b : Bool)
  | num (n : Int)
  | str (s : String)
  | arr (elems : List Json)
  | obj (fields : List (String × Json))

/-- ASCII lowercasing of one character. -/
def foldChar (c : Char) : Char :=
  if ('A' ≤ c ∧ c ≤ 'Z') then Char.ofNat (c.toNat + 32) else c

/-- Go encoding/json matches object keys to struct field tags exactly
or, failing that, case-insensitively (equalFold); modelled with ASCII
lowercasing, which agrees with equalFold on these ASCII tags. -/
def keyMatches (key tag : String) : Bool :=
  key == tag || key.toList.map foldChar == tag.toList.map foldChar

/-- The JSON value decoded into the struct field with the given tag:
object members are processed in order and a later matching key
overwrites an earlier one, so the last match wins. -/
def fieldValue (fields : List (String × Json)) (tag : String) : Option Json :=
  ((fields.filter (fun kv => keyMatches kv.1 tag)).map (fun kv => kv.2)).getLast?

/-- Decode the "success" field of BlackholeResponse: absent or null
leaves the zero value false; a non-bool value is a type error. -/
def decodeSuccessField (fields : List (String × Json)) : Except String Bool :=
  match fieldValue fields "success" with
  | none => .ok false
  | some .null => .ok false
  | some (.bool b) => .ok b
  | some _ => .error "cannot unmarshal value into field Success of type bool"

/-- Decode a string struct field (tags "uuid" and "ip" of BlockedValue):
absent or null leaves the zero value, a non-string is a type error. -/
def decodeStringField (fields : List (String × Json)) (tag : String) : Except String String :=
  match fieldValue fields tag with
  | none => .ok ""
  | some .null => .ok ""
  | some (.str s) => .ok s
  | some _ => .error "cannot unmarshal value into field of type string"

/-- Decode one element of the "values" array into BlockedValue: a JSON
object with optional "uuid" and "ip" members; null decodes to the zero
struct; anything else is a type error. -/
def decodeBlockedValue : Json → Except String BlockedValue
  | .null => .ok { uuid := "", ip := "" }
  | .obj fields =>
      match decodeStringField fields "uuid", decodeStringField fields "ip" with
      | .ok uuid, .ok ip => .ok { uuid := uuid, ip := ip }
      | .error e, _ => .error e
      | _, .error e => .error e
  | _ => .error "cannot unmarshal value into BlockedValue"

/-- Decode the "values" field: absent or null leaves the nil slice,
an array decodes elementwise, anything else is a type error. -/
def decodeValuesField (fields : List (String × Json)) : Except String (List BlockedValue) :=
  match fieldValue fields "values" with
  | none => .ok []
  | some .null => .ok []
  | some (.arr elems) => elems.mapM decodeBlockedValue
  | some _ => .error "cannot unmarshal value into field Values"

/-- The unmarshalling of a JSON value into BlackholeResponse: the top
level must be an object (null gives the zero struct), and each struct
field decodes as above. -/
def unmarshalResponse : Json → Except String BlackholeResponse
  | .null => .ok { success := false, values := [] }
  | .obj fields =>
      match decodeSuccessField fields, decodeValuesField fields with
      | .ok s, .ok vs => .ok { success := s, values := vs }
      | .error e, _ => .error e
      | _, .error e => .error e
  | _ => .error "cannot unmarshal value into BlackholeResponse"

/-- json.Unmarshal(body, resp) on a whole payload: a syntax error when
the bytes are not valid JSON, otherwise unmarshalling of the tree. -/
def decodeBlackholeResponse : Option Json → Except String BlackholeResponse
  | none => .error "invalid character in JSON input"
  | some j => unmarshalResponse j

/-! ## updateMetrics (src/exporter.go lines 113 to 132) -/

/-- updateMetrics: on a decode error log and return (store untouched);
if Success is false log and return (store untouched); otherwise Reset
and re-Set one gauge per value. -/
def updateMetrics (parsed : Option Json) (store : Store) : Store :=
  match decodeBlackholeResponse parsed with
  | .error _ => store
  | .ok resp =>
      if !resp.success then store
      else replaceStore resp.values store

/-! ## Configuration loading (src/exporter.go lines 43 to 78) -/

/-- The environment as os.Getenv sees it: each variable reads as a
string, the empty string when unset. -/
structure Env where
  apiURL : String
  user : String
  password : String
  port : String
  scrapeIntervalSeconds : String
  deriving DecidableEq, Repr

/-- The Config struct (src/exporter.go lines 19 to 25); the scrape
interval is kept in whole seconds. -/
structure Config where
  apiURL : String
  user : String
  password : String
  port : String
  scrapeIntervalSeconds : Int
  deriving DecidableEq, Repr

/-- One decimal digit of an ASCII numeral, if the character is one. -/
def digitVal (c : Char) : Option Nat :=
  if ('0' ≤ c ∧ c ≤ '9') then some (c.toNat - '0'.toNat) else none

/-- Accumulate decimal digits left to right; none on a non-digit. -/
def parseDigits (chars : List Char) : Option Nat :=
  chars.foldl
    (fun acc c =>
      match acc, digitVal c with
      | some n, some d => some (10 * n + d)
      | _, _ => none)
    (some 0)

/-- strconv.Atoi: an optional sign followed by at least one decimal
digit, rejecting anything else and any value outside the 64-bit int
range (Go returns ErrRange there, so err is non-nil). -/
def atoi (s : String) : Option Int :=
  let signed : Bool × List Char :=
    match s.toList with
    | '+' :: rest => (false, rest)
    | '-' :: rest => (true, rest)
    | chars => (false, chars)
  match signed with
  | (_, []) => none
  | (neg, digits) =>
      match parseDigits digits with
      | none => none
      | some n =>
          let value : Int := if neg then -(n : Int) else (n : Int)
          if value < -(2 ^ 63) ∨ (2 ^ 63 - 1 : Int) < value then none
          else some value

/-- The scrape-interval computation of loadConfig (src/exporter.go
lines 67 to 72): Atoi the variable; on error or a non-positive result
fall back to 60. -/
def scrapeIntervalOf (raw : String) : Int :=
  match atoi raw with
  | none => 60
  | some n => if n ≤ 0 then 60 else n

/-- loadConfig (src/exporter.go lines 44 to 77): fail when any of the
three required variables is empty, default the port to ":9898" when
empty, and compute the scrape interval.  main treats the error result
by exiting fatally (log.Fatalf, src/exporter.go line 162). -/
def loadConfig (env : Env) : Except String Config :=
  if env.apiURL = "" ∨ env.user = "" ∨ env.password = "" then
    .error "error: missing required environment variables"
  else
    .ok
      { apiURL := env.apiURL
        user := env.user
        password := env.password
        port := if env.port = "" then ":9898" else env.port
        scrapeIntervalSeconds := scrapeIntervalOf env.scrapeIntervalSeconds }

/-- Whether an Except value is the error case. -/
def isErr {ε α : Type} : Except ε α → Bool
  | .error _ => true
  | .ok _ => false

/-! ## fetchBlockedIPs (src/exporter.go lines 89 to 111)

The network is external; one call performs exactly one HTTP exchange,
whose outcome we enumerate.  buildFailure is the http.NewRequest error
path, transportFailure the httpClient.Do error path; a delivered
response carries a status code and the outcome of io.ReadAll. -/

/-- The possible outcomes of the single HTTP exchange of one fetch. -/
inductive ReqResult where
  | buildFailure
  | transportFailure
  | response (status : Nat) (bodyRead : Except Unit (List Nat))
  deriving Repr

/-- The errors fetchBlockedIPs can return, one per return site. -/
inductive FetchErr where
  | buildFailed
  | network
  | unexpectedStatus (code : Nat)
  | readFailed
  deriving DecidableEq, Repr

/-- fetchBlockedIPs: propagate a request-build error, propagate a
transport error, reject any status other than 200, propagate a body
read error, and otherwise return the raw body bytes. -/
def fetchBlockedIPs : ReqResult → Except FetchErr (List Nat)
  | .buildFailure => .error .buildFailed
  | .transportFailure => .error .network
  | .response status bodyRead =>
      if status ≠ 200 then .error (.unexpectedStatus status)
      else
        match bodyRead with
        | .error _ => .error .readFailed
        | .ok body => .ok body

/-! ## The scrape loop (src/exporter.go lines 135 to 149)

One cycle either fails at the fetch stage (logged, store untouched) or
hands the body to updateMetrics; the body is represented by its parse
outcome.  The Go loop is for-semicolon-semicolon-receive: the body runs
first, then each further iteration waits for a ticker tick.  We model
the trace of a run that performs the cycles of a given input list. -/

/-- What one loop iteration is given: the fetch outcome, a successful
fetch carrying the parse outcome of the body it produced. -/
abbrev CycleInput := Except FetchErr (Option Json)

/-- One iteration of the loop body: a fetch error only logs; otherwise
updateMetrics runs on the body. -/
def scrapeCycle (input : CycleInput) (store : Store) : Store :=
  match input with
  | .error _ => store
  | .ok parsed => updateMetrics parsed store

/-- An observable event of the loop: running one cycle, or blocking on
the ticker channel between cycles. -/
inductive LoopEvent where
  | runCycle (input : CycleInput)
  | awaitTick

/-- The steady-state part of the loop trace: every cycle after the
first is preceded by exactly one wait on the ticker channel (the
receive in the for statement of src/exporter.go line 140). -/
def tickCycles : List CycleInput → List LoopEvent
  | [] => []
  | input :: rest => .awaitTick :: .runCycle input :: tickCycles rest

/-- The event trace of the loop on a list of cycle inputs: the first
cycle runs immediately, before any wait on the ticker, and the rest
follow tick by tick. -/
def startScrapingLoopTrace : List CycleInput → List LoopEvent
  | [] => []
  | first :: rest => .runCycle first :: tickCycles rest

/-- How many cycles a trace runs. -/
def cycleCount (events : List LoopEvent) : Nat :=
  (events.filter (fun e => match e with | .runCycle _ => true | .awaitTick => false)).length

/-- The store after the loop has consumed a list of cycle inputs. -/
def loopStore (inputs : List CycleInput) (store : Store) : Store :=
  inputs.foldl (fun st input => scrapeCycle input st) store

/-! ## Interleaving model of replace under concurrent render

The Prometheus gauge vector locks each Reset and each With/Set call
individually; no lock spans the whole success branch of updateMetrics.
A concurrent gather (render) can therefore run between any two of these
micro-operations.  We model the branch as its list of micro-operations
and enumerate every store state a concurrent render can observe. -/

/-- One individually-locked operation on the gauge vector. -/
inductive MicroOp where
  | resetOp
  | setOp (k : LabelPair) (v : Int)
  deriving DecidableEq, Repr

/-- Apply one micro-operation to the store. -/
def applyOp (store : Store) : MicroOp → Store
  | .resetOp => resetStore store
  | .setOp k v => setGauge store k v

/-- The micro-operations issued by the success branch of updateMetrics
(src/exporter.go lines 127 to 130): one Reset, then one Set per value. -/
def replaceOps (values : List BlockedValue) : List MicroOp :=
  .resetOp :: values.map (fun v => .setOp (v.ip, v.uuid) 1)

/-- Every store state a render interleaved with the given operation
sequence can observe: the state before any operation and the state
after each one. -/
def observableStates (store : Store) (ops : List MicroOp) : List Store :=
  ops.scanl applyOp store

/-! ## Store lemmas -/

/-- Looking up after a Set sees the new value at the set key and the
old store everywhere else. -/
theorem lookupSeries_setGauge (s : Store) (k p : LabelPair) (v : Int) :
    lookupSeries (setGauge s k v) p = if p = k then some v else lookupSeries s p := by
  induction s with
  | nil =>
      by_cases h : k = p
      · subst h
        simp [setGauge, lookupSeries]
      · have h2 : ¬p = k := fun hh => h hh.symm
        simp [setGauge, lookupSeries, h, h2]
  | cons e rest ih =>
      by_cases hek : e.1 = k
      · by_cases hkp : k = p
        · subst hkp
          simp [setGauge, lookupSeries, hek]
        · have h2 : ¬p = k := fun hh => hkp hh.symm
          have hep : ¬e.1 = p := by rw [hek]; exact hkp
          simp [setGauge, lookupSeries, hek, hkp, h2, hep]
      · by_cases hep : e.1 = p
        · have h2 : ¬p = k := fun hh => hek (by rw [hep, hh])
          simp [setGauge, lookupSeries, hek, hep, h2]
        · simp [setGauge, lookupSeries, hek, hep, ih]

/-- Looking up after the Set fold of the success branch: keys among the
values read 1, the rest read from the store the fold started with. -/
theorem lookupSeries_setFold (vs : List BlockedValue) (st : Store) (p : LabelPair) :
    lookupSeries (vs.foldl (fun s v => setGauge s (v.ip, v.uuid) 1) st) p =
      if p ∈ vs.map (fun v => (v.ip, v.uuid)) then some 1 else lookupSeries st p := by
  induction vs generalizing st with
  | nil => simp
  | cons v vs ih =>
      simp only [List.foldl_cons, List.map_cons, List.mem_cons, ih,
        lookupSeries_setGauge]
      by_cases hmem : p ∈ vs.map (fun v => (v.ip, v.uuid))
      · simp [hmem]
      · by_cases hp : p = (v.ip, v.uuid) <;> simp [hmem, hp]

/-- A Set leaves the key list unchanged when the key is present and
appends the key when it is absent. -/
theorem storeKeys_setGauge (s : Store) (k : LabelPair) (v : Int) :
    storeKeys (setGauge s k v) =
      if k ∈ storeKeys s then storeKeys s else storeKeys s ++ [k] := by
  induction s with
  | nil => simp [setGauge, storeKeys]
  | cons e rest ih =>
      by_cases hek : e.1 = k
      · simp [setGauge, storeKeys, hek]
      · have hke : ¬k = e.1 := fun hh => hek hh.symm
        have lhs : storeKeys (setGauge (e :: rest) k v) =
            e.1 :: storeKeys (setGauge rest k v) := by
          simp [setGauge, hek, storeKeys]
        have hcons : storeKeys (e :: rest) = e.1 :: storeKeys rest := rfl
        rw [lhs, ih, hcons]
        by_cases hmem : k ∈ storeKeys rest
        · rw [if_pos hmem, if_pos (List.mem_cons_of_mem _ hmem)]
        · rw [if_neg hmem, if_neg (by simp [List.mem_cons, hke, hmem])]
          simp

/-- A Set keeps the keys of the store free of duplicates. -/
theorem nodup_storeKeys_setGauge (s : Store) (k : LabelPair) (v : Int)
    (h : (storeKeys s).Nodup) : (storeKeys (setGauge s k v)).Nodup := by
  rw [storeKeys_setGauge]
  by_cases hmem : k ∈ storeKeys s
  · simpa [hmem] using h
  · simp [hmem, List.nodup_append, h]

/-- The store built by the success branch never holds two series with
the same label pair. -/
theorem nodup_storeKeys_replaceStore (vs : List BlockedValue) (s : Store) :
    (storeKeys (replaceStore vs s)).Nodup := by
  have general : ∀ st : Store, (storeKeys st).Nodup →
      (storeKeys (vs.foldl (fun acc v => setGauge acc (v.ip, v.uuid) 1) st)).Nodup := by
    induction vs with
    | nil => intro st h; simpa using h
    | cons v vs ih =>
        intro st h
        simp only [List.foldl_cons]
        exact ih _ (nodup_storeKeys_setGauge st (v.ip, v.uuid) 1 h)
  exact general (resetStore s) (by simp [resetStore, storeKeys])

/-- The micro-operation sequence of the success branch, run to
completion with no interleaving, lands on exactly the store that
replaceStore describes: the interleaving model refines the atomic one. -/
theorem foldl_replaceOps (vs : List BlockedValue) (s : Store) :
    (replaceOps vs).foldl applyOp s = replaceStore vs s := by
  simp [replaceOps, replaceStore, applyOp, List.foldl_map, resetStore]

/-- A trace of tick-led cycles runs one cycle per input. -/
theorem cycleCount_tickCycles (inputs : List CycleInput) :
    cycleCount (tickCycles inputs) = inputs.length := by
  induction inputs with
  | nil => rfl
  | cons input rest ih =>
      simp only [tickCycles, cycleCount, List.filter, List.length_cons] at *
      omega

/-! ## The claims -/

/-- Claim C9: replacing the store with an entry list E and rendering,
then replacing again with the same E and rendering, produces the same
output: replace discards the previous snapshot entirely, so it is
idempotent on the snapshot. -/
theorem replace_idempotent (store : Store) (entries : List BlockedValue) :
    render (replaceStore entries (replaceStore entries store)) =
      render (replaceStore entries store) := rfl

/-- Claim C2: a payload that decodes with the success flag false
leaves the metric store exactly as it was, whatever values the payload
carried: updateMetrics returns before touching the gauge vector. -/
theorem unsuccessful_cycle_leaves_store
    (parsed : Option Json) (resp : BlackholeResponse) (store : Store)
    (hdec : decodeBlackholeResponse parsed = .ok resp)
    (hsucc : resp.success = false) :
    render (updateMetrics parsed store) = render store := by
  simp [render, updateMetrics, hdec, hsucc]

/-- Claim C2 witness: a concrete success-false payload carrying a
value list leaves a concrete nonempty store untouched. -/
theorem unsuccessful_cycle_leaves_store_witness :
    render (updateMetrics
        (some (.obj [("success", .bool false),
          ("values", .arr [.obj [("uuid", .str "u2"), ("ip", .str "5.6.7.8")]])]))
        [(("1.2.3.4", "u1"), 1)]) =
      render [(("1.2.3.4", "u1"), 1)] :=
  unsuccessful_cycle_leaves_store _
    { success := false, values := [{ uuid := "u2", ip := "5.6.7.8" }] } _
    (by rfl) rfl

/-- Claim C4: a payload the decoder rejects, syntactically invalid
bytes included, is logged and skipped and leaves the store exactly as
it was; syntactically invalid bytes always decode to an error. -/
theorem decode_error_leaves_store (parsed : Option Json) (store : Store)
    (hdec : isErr (decodeBlackholeResponse parsed) = true) :
    render (updateMetrics parsed store) = render store ∧
    isErr (decodeBlackholeResponse none) = true := by
  refine ⟨?_, rfl⟩
  cases h : decodeBlackholeResponse parsed with
  | error e => simp [render, updateMetrics, h]
  | ok r =>
      rw [h] at hdec
      simp [isErr] at hdec

/-- Claim C4 witness: a concrete payload of the wrong JSON shape (a
bare string) leaves a concrete nonempty store untouched. -/
theorem decode_error_leaves_store_witness :
    render (updateMetrics (some (.str "nonsense")) [(("1.2.3.4", "u1"), 1)]) =
        render [(("1.2.3.4", "u1"), 1)] ∧
      isErr (decodeBlackholeResponse none) = true :=
  decode_error_leaves_store (some (.str "nonsense")) [(("1.2.3.4", "u1"), 1)] rfl

/-- Claim C3: a payload that decodes with the success flag true
replaces the snapshot: the rendered output has exactly one series per
distinct (ip, uuid) pair of its values, each with gauge value 1, and
no key outside the values, so every earlier entry not in the new list
is gone; and the key list holds no duplicates. -/
theorem successful_cycle_replaces_snapshot
    (parsed : Option Json) (resp : BlackholeResponse) (store : Store)
    (hdec : decodeBlackholeResponse parsed = .ok resp)
    (hsucc : resp.success = true) :
    (∀ p : LabelPair,
      lookupSeries (render (updateMetrics parsed store)) p =
        if p ∈ resp.values.map (fun v => (v.ip, v.uuid)) then some 1 else none) ∧
    (storeKeys (updateMetrics parsed store)).Nodup := by
  have h : updateMetrics parsed store = replaceStore resp.values store := by
    simp [updateMetrics, hdec, hsucc]
  rw [render] at *
  rw [h]
  constructor
  · intro p
    rw [replaceStore, lookupSeries_setFold]
    simp [resetStore, lookupSeries]
  · exact nodup_storeKeys_replaceStore resp.values store

/-- Claim C3 witness: a concrete success-true payload with one value
replaces a concrete old snapshot: its pair renders with value 1 and
the old pair renders no longer. -/
theorem successful_cycle_replaces_snapshot_witness :
    lookupSeries (render (updateMetrics
        (some (.obj [("success", .bool true),
          ("values", .arr [.obj [("uuid", .str "u1"), ("ip", .str "1.2.3.4")]])]))
        [(("9.9.9.9", "old"), 1)])) ("1.2.3.4", "u1") = some 1 ∧
    lookupSeries (render (updateMetrics
        (some (.obj [("success", .bool true),
          ("values", .arr [.obj [("uuid", .str "u1"), ("ip", .str "1.2.3.4")]])]))
        [(("9.9.9.9", "old"), 1)])) ("9.9.9.9", "old") = none := by
  have h := successful_cycle_replaces_snapshot
    (some (.obj [("success", .bool true),
      ("values", .arr [.obj [("uuid", .str "u1"), ("ip", .str "1.2.3.4")]])]))
    { success := true, values := [{ uuid := "u1", ip := "1.2.3.4" }] }
    [(("9.9.9.9", "old"), 1)] (by rfl) rfl
  refine ⟨?_, ?_⟩
  · rw [h.1 ("1.2.3.4", "u1")]
    simp
  · rw [h.1 ("9.9.9.9", "old")]
    simp

/-- Claim C10 counterexample: a syntactically valid JSON object with
no success member can still fail decoding, because another member (a
values member of the wrong type) raises a type error, so parsing does
not always avoid a decode error when success is absent. -/
theorem missing_success_can_still_fail_decode :
    isErr (decodeBlackholeResponse (some (.obj [("values", .num 5)]))) = true := rfl

/-- Claim C10 amended: a syntactically valid JSON object with no
member matching the success tag and whose values member decodes
cleanly is accepted with success defaulting to false, so the cycle
takes the not-successful branch and the store is unchanged. -/
theorem missing_success_defaults_false
    (fields : List (String × Json)) (vs : List BlockedValue) (store : Store)
    (hnone : fieldValue fields "success" = none)
    (hvals : decodeValuesField fields = .ok vs) :
    decodeBlackholeResponse (some (.obj fields)) =
        .ok { success := false, values := vs } ∧
      render (updateMetrics (some (.obj fields)) store) = render store := by
  have hdec : decodeBlackholeResponse (some (.obj fields)) =
      .ok { success := false, values := vs } := by
    simp [decodeBlackholeResponse, unmarshalResponse, decodeSuccessField, hnone, hvals]
  exact ⟨hdec, by simp [render, updateMetrics, hdec]⟩

/-- Claim C10 amended witness: the concrete payload holding only a
well-formed values array decodes with success false and leaves a
concrete nonempty store untouched. -/
theorem missing_success_defaults_false_witness :
    decodeBlackholeResponse
        (some (.obj [("values", .arr [.obj [("uuid", .str "u1"), ("ip", .str "1.2.3.4")]])])) =
        .ok { success := false, values := [{ uuid := "u1", ip := "1.2.3.4" }] } ∧
      render (updateMetrics
        (some (.obj [("values", .arr [.obj [("uuid", .str "u1"), ("ip", .str "1.2.3.4")]])]))
        [(("9.9.9.9", "old"), 1)]) = render [(("9.9.9.9", "old"), 1)] :=
  missing_success_defaults_false
    [("values", .arr [.obj [("uuid", .str "u1"), ("ip", .str "1.2.3.4")]])]
    [{ uuid := "u1", ip := "1.2.3.4" }] [(("9.9.9.9", "old"), 1)] rfl rfl

/-- Claim C5: configuration loading always yields a positive scrape
interval: a variable that Atoi-parses to a positive n gives n seconds,
and an unset, unparseable, zero or negative variable gives the default
60 seconds. -/
theorem scrape_interval_positive_or_default (raw : String) :
    0 < scrapeIntervalOf raw ∧
    (∀ n : Int, atoi raw = some n → 0 < n → scrapeIntervalOf raw = n) ∧
    (atoi raw = none → scrapeIntervalOf raw = 60) ∧
    (∀ n : Int, atoi raw = some n → n ≤ 0 → scrapeIntervalOf raw = 60) := by
  refine ⟨?_, ?_, ?_, ?_⟩
  · unfold scrapeIntervalOf
    cases h : atoi raw with
    | none => norm_num
    | some n =>
        by_cases hn : n ≤ 0
        · simp [hn]
        · simp [hn]
          omega
  · intro n h hpos
    have hn : ¬n ≤ 0 := by omega
    simp [scrapeIntervalOf, h, hn]
  · intro h
    simp [scrapeIntervalOf, h]
  · intro n h hle
    simp [scrapeIntervalOf, h, hle]

/-- Claim C5 witness: a positive numeral gives itself, the empty
(unset) string and a negative numeral give the default. -/
theorem scrape_interval_positive_or_default_witness :
    scrapeIntervalOf "5" = 5 ∧ scrapeIntervalOf "" = 60 ∧ scrapeIntervalOf "-3" = 60 :=
  ⟨(scrape_interval_positive_or_default "5").2.1 5 (by rfl) (by norm_num),
   (scrape_interval_positive_or_default "").2.2.1 (by rfl),
   (scrape_interval_positive_or_default "-3").2.2.2 (-3) (by rfl) (by norm_num)⟩

/-- Claim C6: loadConfig fails exactly when the API URL, user or
password variable is empty (main exits fatally on that error), and on
success an empty port variable defaults the listen address to ":9898"
while a nonempty one is kept. -/
theorem load_config_required_and_default (env : Env) :
    (isErr (loadConfig env) = true ↔
      (env.apiURL = "" ∨ env.user = "" ∨ env.password = "")) ∧
    (∀ cfg : Config, loadConfig env = .ok cfg →
      cfg.port = if env.port = "" then ":9898" else env.port) := by
  by_cases h : env.apiURL = "" ∨ env.user = "" ∨ env.password = ""
  · refine ⟨by simp [loadConfig, h, isErr], ?_⟩
    intro cfg hcfg
    rw [loadConfig, if_pos h] at hcfg
    cases hcfg
  · refine ⟨by simp [loadConfig, h, isErr], ?_⟩
    intro cfg hcfg
    rw [loadConfig, if_neg h] at hcfg
    cases hcfg
    rfl

/-- Claim C6 witness: an environment missing the API URL is rejected,
and a complete environment with no port gets listen address ":9898". -/
theorem load_config_required_and_default_witness :
    isErr (loadConfig ⟨"", "u", "p", "", ""⟩) = true ∧
    Config.port ⟨"http://api", "u", "p", ":9898", 60⟩ =
      if ("" : String) = "" then ":9898" else "" :=
  ⟨(load_config_required_and_default ⟨"", "u", "p", "", ""⟩).1.mpr (Or.inl rfl),
   (load_config_required_and_default ⟨"http://api", "u", "p", "", ""⟩).2
      ⟨"http://api", "u", "p", ":9898", 60⟩ (by rfl)⟩

/-- Claim C7: one fetch errors on a transport failure, on any status
other than 200 (carrying that code), and on a body read failure; the
raw body bytes come back exactly when the single exchange delivered a
200 response with a readable body, so there is no retry inside the
call. -/
theorem fetch_errors_and_success (r : ReqResult) :
    (r = .transportFailure → fetchBlockedIPs r = .error .network) ∧
    (∀ status : Nat, ∀ bodyRead : Except Unit (List Nat),
      r = .response status bodyRead → status ≠ 200 →
        fetchBlockedIPs r = .error (.unexpectedStatus status)) ∧
    (∀ bodyRead : Except Unit (List Nat),
      r = .response 200 bodyRead → isErr bodyRead = true →
        fetchBlockedIPs r = .error .readFailed) ∧
    (∀ body : List Nat, fetchBlockedIPs r = .ok body ↔ r = .response 200 (.ok body)) := by
  refine ⟨?_, ?_, ?_, ?_⟩
  · rintro rfl
    rfl
  · rintro status bodyRead rfl hne
    simp [fetchBlockedIPs, hne]
  · rintro bodyRead rfl herr
    cases bodyRead with
    | error e => rfl
    | ok b => simp [isErr] at herr
  · intro body
    constructor
    · intro h
      cases r with
      | buildFailure => simp [fetchBlockedIPs] at h
      | transportFailure => simp [fetchBlockedIPs] at h
      | response status bodyRead =>
          by_cases hs : status = 200
          · subst hs
            cases bodyRead with
            | error e => simp [fetchBlockedIPs] at h
            | ok b =>
                simp [fetchBlockedIPs] at h
                rw [h]
          · simp [fetchBlockedIPs, hs] at h
    · rintro rfl
      rfl

/-- Claim C7 witness: the four outcomes at concrete exchanges: a
transport failure, a 500 status, an unreadable body under a 200, and a
delivered body under a 200. -/
theorem fetch_errors_and_success_witness :
    fetchBlockedIPs .transportFailure = .error .network ∧
    fetchBlockedIPs (.response 500 (.ok [])) = .error (.unexpectedStatus 500) ∧
    fetchBlockedIPs (.response 200 (.error ())) = .error .readFailed ∧
    fetchBlockedIPs (.response 200 (.ok [123])) = .ok [123] :=
  ⟨(fetch_errors_and_success .transportFailure).1 rfl,
   (fetch_errors_and_success (.response 500 (.ok []))).2.1 500 (.ok []) rfl (by decide),
   (fetch_errors_and_success (.response 200 (.error ()))).2.2.1 (.error ()) rfl rfl,
   ((fetch_errors_and_success (.response 200 (.ok [123]))).2.2.2 [123]).mpr rfl⟩

/-- Claim C8: the loop trace starts with a cycle, before any wait on
the ticker, and runs exactly one cycle per input however many of the
inputs are fetch or parse errors: no error terminates the loop, and
each later cycle follows one tick wait. -/
theorem loop_first_cycle_immediate_and_error_tolerant
    (first : CycleInput) (rest : List CycleInput) :
    (startScrapingLoopTrace (first :: rest)).head? = some (.runCycle first) ∧
    cycleCount (startScrapingLoopTrace (first :: rest)) = (first :: rest).length := by
  refine ⟨rfl, ?_⟩
  simp only [startScrapingLoopTrace, cycleCount, List.filter, List.length_cons]
  have h := cycleCount_tickCycles rest
  simp only [cycleCount] at h
  omega

/-- Claim C1: refuted on the code.  The success branch of
updateMetrics issues its Reset and each Set as separately locked
operations on the gauge vector, with no lock spanning the branch, so a
render interleaved after the Reset observes the cleared store: with
the old snapshot holding the pair (1.2.3.4, u1) and the new values
holding (5.6.7.8, u2), the empty state is observable and is neither
the old snapshot nor the new one. -/
theorem replace_torn_read_observable :
    ([] : Store) ∈ observableStates [(("1.2.3.4", "u1"), 1)]
        (replaceOps [{ uuid := "u2", ip := "5.6.7.8" }]) ∧
    ([] : Store) ≠ [(("1.2.3.4", "u1"), 1)] ∧
    ([] : Store) ≠
      replaceStore [{ uuid := "u2", ip := "5.6.7.8" }] [(("1.2.3.4", "u1"), 1)] := by
  refine ⟨?_, by simp, by simp [replaceStore, resetStore, setGauge]⟩
  simp [observableStates, replaceOps, applyOp, resetStore, List.scanl]

end BlackholeExporter
